import Mathlib

/-!
Shallow embedding of `src/robomeshcat/scene.py` (classes `Scene` and
`AnimationContext`): a scene-management façade over an external meshcat
visualizer.  State-mutating Python methods become explicit state-passing
functions that additionally return the ordered list of observable effects
(`Event`s): writes to the remote visualization tree (live or scoped to an
animation frame), `fk()` invocations on robot collaborators, and console
warnings.  Python dictionaries become insertion-ordered association lists;
`dict.pop` on a missing key (a `KeyError`) is an `Except.error` result.
-/

namespace RoboMeshCat

/-- Pose is a 4×4 homogeneous transform; entries are modelled as rationals
(the claims under study involve no floating-point arithmetic, only storage
and retrieval of matrix entries). -/
def Pose : Type := Fin 4 → Fin 4 → ℚ

/-- Identity 4×4 matrix, the value of `np.eye(4)` used for the initial
`camera_pose`. -/
def eye4 : Pose := fun i j => if i = j then 1 else 0

/-- Property value written through `set_property`: a scalar (zoom) or a
vector (background colors). -/
inductive PVal where
  | num (q : ℚ)
  | vec (l : List ℚ)
deriving DecidableEq

/-- Modelled from the spec: an `Object` collaborator (class in
`robomeshcat/object.py`, not part of the sources under study) exposes a
`name`, `geometry`, `material` and a current `pose`; geometry and material
are opaque to the scene code and modelled as strings. -/
structure Object where
  name : String
  geometry : String
  material : String
  pose : Pose

/-- Modelled from the spec: a `Robot` collaborator (class in
`robomeshcat/robot.py`, not part of the sources under study) exposes a
`name`, a mapping of child `Object`s (its visual links) and an `fk()`
operation that recomputes the children's poses from the robot's current
configuration.  We model the effect of one `fk()` call as the finite list
of (child name, new pose) assignments it performs. -/
structure Robot where
  name : String
  objects : List Object
  fkAssignments : List (String × Pose)

/-- Modelled from the spec: a meshcat `Animation` clip is an ordered
sequence of frames, each a frame index together with the path→property
writes recorded at that frame, plus the configured default framerate. -/
structure Animation where
  default_framerate : Nat
  frames : List (Nat × List (String × String))

/-- Write to the visualization tree, without its live/frame target:
`set_transform`, `set_property` (plain), `set_property` with an explicit
type tag, `set_object`, or `delete`. -/
inductive Write where
  | set_transform (path : String) (pose : Pose)
  | set_property (path prop : String) (value : PVal)
  | set_property_typed (path prop ty : String) (value : PVal)
  | set_object (path geometry material : String)
  | delete (path : String)

/-- Rendered summary of a write, used to record writes inside an
`Animation` frame (the clip stores path/property names only in our model;
the tagged trace events carry the full data). -/
def Write.summary : Write → String × String
  | .set_transform p _ => (p, "transform")
  | .set_property p prop _ => (p, prop)
  | .set_property_typed p prop _ _ => (p, prop)
  | .set_object p _ _ => (p, "object")
  | .delete p => (p, "delete")

/-- Observable effect of a scene operation: a write to the live tree, a
write scoped to animation frame `idx`, an `fk()` invocation on a robot, a
published animation clip, or a console warning (`print`). -/
inductive Event where
  | live (w : Write)
  | frame (idx : Nat) (w : Write)
  | fkCall (robot : String)
  | set_animation (path : String) (clip : Option Animation)
  | warn (msg : String)

/-- Event is a write scoped to an animation frame (as opposed to a live
write, an fk call, a publish or a warning). -/
def Event.isFrameWrite : Event → Bool
  | .frame _ _ => true
  | _ => false

/-- Event is an `fk()` invocation. -/
def Event.isFk : Event → Bool
  | .fkCall _ => true
  | _ => false

/-- Path of a write in the visualization tree. -/
def Write.path : Write → String
  | .set_transform p _ => p
  | .set_property p _ _ => p
  | .set_property_typed p _ _ _ => p
  | .set_object p _ _ => p
  | .delete p => p

/-- Write addresses the camera subtree: the scene code writes camera data
at exactly these two paths (`_update_camera`). -/
def Write.isCamera (w : Write) : Bool :=
  w.path == "/Cameras/default" || w.path == "/Cameras/default/rotated/<object>"

/-- Event is a camera write (live or frame-scoped). -/
def Event.isCamera : Event → Bool
  | .live w => w.isCamera
  | .frame _ w => w.isCamera
  | _ => false

/-- Association list with string keys, modelling an insertion-ordered
Python `dict`: lookup of a key. -/
def dlookup {α : Type} : List (String × α) → String → Option α
  | [], _ => none
  | (k, v) :: rest, key => if k = key then some v else dlookup rest key

/-- Assignment `d[key] = v` on a Python dict: replaces the value in place
when the key exists (keeping its position), appends otherwise. -/
def dinsert {α : Type} : List (String × α) → String → α → List (String × α)
  | [], key, v => [(key, v)]
  | (k, w) :: rest, key, v =>
      if k = key then (k, v) :: rest else (k, w) :: dinsert rest key v

/-- Removal `d.pop(key)` on a Python dict: `none` models the `KeyError`
raised on a missing key. -/
def dpop {α : Type} : List (String × α) → String → Option (List (String × α))
  | [], _ => none
  | (k, w) :: rest, key =>
      if k = key then some rest else (dpop rest key).map ((k, w) :: ·)

/-- In-place update of the value stored under `key`, when present
(models mutating an object held by the dict). -/
def dupdate {α : Type} (d : List (String × α)) (key : String) (f : α → α) :
    List (String × α) :=
  d.map fun kv => if kv.1 = key then (kv.1, f kv.2) else kv

/-- Keys of the dict, in insertion order. -/
def dkeys {α : Type} (d : List (String × α)) : List String := d.map Prod.fst

/-- State of `Scene` (`scene.py`, `Scene.__init__`): the object and robot
dictionaries, the camera pose and zoom, and the two optional animation
fields `_animation` and `_animation_frame_counter` (the `itertools.count`
counter is modelled by the next value it will yield). -/
structure Scene where
  objects : List (String × Object)
  robots : List (String × Robot)
  camera_pose : Pose
  camera_zoom : ℚ
  animation : Option Animation
  animation_frame_counter : Option Nat

/-- Scene state produced by `Scene.__init__` (the `open`/`wait_for_open`
flags only drive visualizer connection calls and do not affect state). -/
def Scene.init : Scene where
  objects := []
  robots := []
  camera_pose := eye4
  camera_zoom := 1
  animation := none
  animation_frame_counter := none

/-- Writes issued by `Scene.__init__` after constructing the visualizer:
the two background color properties. -/
def Scene.initEvents : List Event :=
  [.live (.set_property "/Background" "top_color" (.vec [1, 1, 1])),
   .live (.set_property "/Background" "bottom_color" (.vec [1, 1, 1]))]

/-- Method `Scene.add_object`: warn when `verbose` and the name is already
present, store the object under its name, and issue a live
`set_object` write at that name. -/
def Scene.add_object (s : Scene) (obj : Object) (verbose : Bool := true) :
    Scene × List Event :=
  let warnEvs : List Event :=
    if verbose && (dlookup s.objects obj.name).isSome then
      [.warn "Object with the same name is already inside the scene, it will be replaced. "]
    else []
  ({ s with objects := dinsert s.objects obj.name obj },
   warnEvs ++ [.live (.set_object obj.name obj.geometry obj.material)])

/-- Method `Scene.remove_object`: when `verbose` and an animation is
active, warn and return without changes; otherwise pop the name from
`objects` (a missing key is a `KeyError`, reported as `Except.error`
before any visualizer write) and issue a live `delete` write. -/
def Scene.remove_object (s : Scene) (obj : Object) (verbose : Bool := true) :
    Except String Scene × List Event :=
  if verbose && s.animation.isSome then
    (.ok s, [.warn "Removing object while animating is not allowed."])
  else
    match dpop s.objects obj.name with
    | none => (.error "KeyError", [])
    | some objs => (.ok { s with objects := objs }, [.live (.delete obj.name)])

/-- Loop body of `Scene.add_robot`: `add_object` on one constituent
object, accumulating state and events. -/
def addObjectStep (verbose : Bool) (acc : Scene × List Event) (o : Object) :
    Scene × List Event :=
  let r := Scene.add_object acc.1 o verbose
  (r.1, acc.2 ++ r.2)

/-- Method `Scene.add_robot`: warn on a duplicate robot name, store the
robot, then `add_object` every constituent object of the robot. -/
def Scene.add_robot (s : Scene) (robot : Robot) (verbose : Bool := true) :
    Scene × List Event :=
  let warnEvs : List Event :=
    if verbose && (dlookup s.robots robot.name).isSome then
      [.warn "Robot with the same name is already inside the scene, it will be replaced. "]
    else []
  robot.objects.foldl (addObjectStep verbose)
    ({ s with robots := dinsert s.robots robot.name robot }, warnEvs)

/-- Loop body of `Scene.remove_robot`: `remove_object` on each constituent
object in turn, aborting (with the events issued so far) when one
raises. -/
def Scene.removeObjectsLoop (s : Scene) (objs : List Object) (verbose : Bool) :
    Except String Scene × List Event :=
  match objs with
  | [] => (.ok s, [])
  | o :: rest =>
    match Scene.remove_object s o verbose with
    | (.ok s1, evs) =>
        let r := Scene.removeObjectsLoop s1 rest verbose
        (r.1, evs ++ r.2)
    | (.error e, evs) => (.error e, evs)

/-- Method `Scene.remove_robot`: when `verbose` and an animation is
active, warn and return without changes; otherwise pop the robot (missing
key is a `KeyError`) and `remove_object` each of its constituent
objects. -/
def Scene.remove_robot (s : Scene) (robot : Robot) (verbose : Bool := true) :
    Except String Scene × List Event :=
  if verbose && s.animation.isSome then
    (.ok s, [.warn "Removing robots while animating is not allowed."])
  else
    match dpop s.robots robot.name with
    | none => (.error "KeyError", [])
    | some robots =>
        Scene.removeObjectsLoop { s with robots := robots } robot.objects verbose

/-- Writes issued by `Scene._update_camera`: the camera transform, then
the zoom property — written with an explicit "number" type tag exactly
when an animation is active, as a plain value otherwise. -/
def Scene.updateCameraWrites (s : Scene) : List Write :=
  [.set_transform "/Cameras/default" s.camera_pose,
   if s.animation.isSome then
     .set_property_typed "/Cameras/default/rotated/<object>" "zoom" "number" (.num s.camera_zoom)
   else
     .set_property "/Cameras/default/rotated/<object>" "zoom" (.num s.camera_zoom)]

/-- Effect of one `robot.fk()` call on the scene's object dictionary: each
(child name, pose) assignment updates the pose of the shared `Object`
instance, visible through `scene.objects` for children registered
there. -/
def fkApplyRobot (objs : List (String × Object)) (r : Robot) :
    List (String × Object) :=
  r.fkAssignments.foldl
    (fun d np => dupdate d np.1 (fun o => { o with pose := np.2 })) objs

/-- First loop of `Scene._update_visualization_tree`: `fk()` on every
registered robot, in registration order; returns the updated object
dictionary and the fk invocation events. -/
def Scene.applyFk (s : Scene) : List (String × Object) × List Event :=
  (s.robots.foldl (fun d kv => fkApplyRobot d kv.2) s.objects,
   s.robots.map fun kv => .fkCall kv.2.name)

/-- Second loop of `Scene._update_visualization_tree`: one transform write
per registered object at its name, with its current pose, in dictionary
order. -/
def treeWrites (objs : List (String × Object)) : List Write :=
  objs.map fun kv => .set_transform kv.2.name kv.2.pose

/-- Method `Scene.render`: with an animation active, draw the next frame
index from the counter and direct this tick's camera and tree writes into
that frame (recording them in the clip); otherwise direct the same writes
to the live tree.  `none` models the `TypeError` Python would raise from
`next(None)` when `_animation` is set but the counter is not — a state
unreachable through the API. -/
def Scene.render (s : Scene) : Option (Scene × List Event) :=
  match s.animation with
  | some anim =>
    match s.animation_frame_counter with
    | none => none
    | some n =>
      let fkRes := Scene.applyFk s
      let camWs := Scene.updateCameraWrites s
      let objWs := treeWrites fkRes.1
      some ({ s with
                objects := fkRes.1,
                animation := some { anim with
                  frames := anim.frames ++ [(n, (camWs ++ objWs).map Write.summary)] },
                animation_frame_counter := some (n + 1) },
            camWs.map (Event.frame n) ++ fkRes.2 ++ objWs.map (Event.frame n))
  | none =>
    let fkRes := Scene.applyFk s
    let camWs := Scene.updateCameraWrites s
    let objWs := treeWrites fkRes.1
    some ({ s with objects := fkRes.1 },
          camWs.map Event.live ++ fkRes.2 ++ objWs.map Event.live)

/-- Iterated `render`: `N` consecutive calls, threading state and
concatenating event traces. -/
def Scene.renderN (s : Scene) : Nat → Option (Scene × List Event)
  | 0 => some (s, [])
  | n + 1 =>
    match Scene.render s with
    | none => none
    | some (s1, evs) =>
      match Scene.renderN s1 n with
      | none => none
      | some (s2, evs2) => some (s2, evs ++ evs2)

/-- Property getter `Scene.camera_pos`: the translation block
`camera_pose[:3, 3]`. -/
def Scene.camera_pos (s : Scene) : Fin 3 → ℚ :=
  fun i => s.camera_pose i.castSucc 3

/-- Property setter `Scene.camera_pos`: writes `camera_pose[:3, 3] = p`,
entry by entry, leaving every other entry of the 4×4 store unchanged. -/
def Scene.set_camera_pos (s : Scene) (p : Fin 3 → ℚ) : Scene :=
  { s with camera_pose := fun i j =>
      if hi : (i : ℕ) < 3 then
        if j = 3 then p ⟨i, hi⟩ else s.camera_pose i j
      else s.camera_pose i j }

/-- Property getter `Scene.camera_rot`: the rotation block
`camera_pose[:3, :3]`. -/
def Scene.camera_rot (s : Scene) : Fin 3 → Fin 3 → ℚ :=
  fun i j => s.camera_pose i.castSucc j.castSucc

/-- Property setter `Scene.camera_rot`: writes `camera_pose[:3, :3] = r`,
entry by entry, leaving every other entry of the 4×4 store unchanged. -/
def Scene.set_camera_rot (s : Scene) (r : Fin 3 → Fin 3 → ℚ) : Scene :=
  let pose : Pose := fun i j =>
    if hij : (i : ℕ) < 3 ∧ (j : ℕ) < 3 then
      r ⟨i, hij.1⟩ ⟨j, hij.2⟩
    else s.camera_pose i j
  { s with camera_pose := pose }

/-- Constructor state of `AnimationContext` (`scene.py`): the target
framerate and the animation slot name (default `'a'`); the bound scene is
passed explicitly to `enter`/`exit`. -/
structure AnimationContext where
  fps : Nat
  name : String := "a"

/-- Factory `Scene.animation(fps)`: builds the context without mutating
scene state. -/
def Scene.animationFactory (fps : Nat := 30) : AnimationContext :=
  { fps := fps }

/-- Method `AnimationContext.__enter__`: installs a fresh frame counter
(first value 0) and a fresh empty clip at the configured framerate on the
scene. -/
def AnimationContext.enter (ctx : AnimationContext) (s : Scene) : Scene :=
  { s with
      animation_frame_counter := some 0,
      animation := some { default_framerate := ctx.fps, frames := [] } }

/-- Python exception in flight when a `with` block exits abnormally. -/
structure PyExc where
  ty : String
  msg : String

/-- Method `AnimationContext.__exit__`: publishes the scene's current clip
at `animations/<name>`, clears both animation fields, and returns the
suppress flag (`None` in Python, i.e. `false`): it runs identically for
every in-flight exception and never suppresses it. -/
def AnimationContext.exit (ctx : AnimationContext) (s : Scene)
    (_exc : Option PyExc) : Scene × List Event × Bool :=
  ({ s with animation := none, animation_frame_counter := none },
   [.set_animation ("animations/" ++ ctx.name) s.animation],
   false)

/-- Python `with scene.animation(fps):` semantics: `__enter__`, then the
block body (which returns the mutated scene, an optional in-flight
exception, and its events), then `__exit__` on every path; the exception
propagates unless `__exit__` returns a truthy suppress flag. -/
def withAnimation (s : Scene) (ctx : AnimationContext)
    (body : Scene → Scene × Option PyExc × List Event) :
    Scene × Option PyExc × List Event :=
  let s1 := ctx.enter s
  let b := body s1
  let e := ctx.exit b.1 b.2.1
  (e.1, if e.2.2 then none else b.2.1, b.2.2 ++ e.2.1)

/-- One public API operation on a scene, relating the state before to the
state after: add/remove of objects and robots (removal only when it
returns normally), a render tick, `AnimationContext` entry and exit, and
the camera property setters. -/
inductive Step : Scene → Scene → Prop
  | add_object (s : Scene) (obj : Object) (v : Bool) :
      Step s (Scene.add_object s obj v).1
  | remove_object (s s' : Scene) (obj : Object) (v : Bool)
      (h : (Scene.remove_object s obj v).1 = .ok s') : Step s s'
  | add_robot (s : Scene) (r : Robot) (v : Bool) :
      Step s (Scene.add_robot s r v).1
  | remove_robot (s s' : Scene) (r : Robot) (v : Bool)
      (h : (Scene.remove_robot s r v).1 = .ok s') : Step s s'
  | render (s s' : Scene) (evs : List Event)
      (h : Scene.render s = some (s', evs)) : Step s s'
  | animEnter (s : Scene) (ctx : AnimationContext) : Step s (ctx.enter s)
  | animExit (s : Scene) (ctx : AnimationContext) (exc : Option PyExc) :
      Step s (ctx.exit s exc).1
  | set_camera_pos (s : Scene) (p : Fin 3 → ℚ) : Step s (s.set_camera_pos p)
  | set_camera_rot (s : Scene) (r : Fin 3 → Fin 3 → ℚ) :
      Step s (s.set_camera_rot r)
  | set_camera_zoom (s : Scene) (z : ℚ) : Step s { s with camera_zoom := z }

/-- Scene states reachable from construction through the public API. -/
inductive Reachable : Scene → Prop
  | init : Reachable Scene.init
  | step {s s' : Scene} : Reachable s → Step s s' → Reachable s'

/-- Concrete object fixture. -/
def objO : Object := { name := "o", geometry := "g", material := "m", pose := eye4 }

/-- Concrete robot fixture owning `objO` as its single visual link. -/
def robotR : Robot := { name := "r", objects := [objO], fkAssignments := [("o", eye4)] }

/-- Scene holding one object and one robot, no capture active. -/
def sceneRO : Scene :=
  { Scene.init with objects := [("o", objO)], robots := [("r", robotR)] }

/-- Scene holding one object and one robot, with an animation capture
active (as installed by `AnimationContext.__enter__`). -/
def capSceneO : Scene :=
  { Scene.init with
      objects := [("o", objO)]
      robots := [("r", robotR)]
      animation := some { default_framerate := 30, frames := [] }
      animation_frame_counter := some 0 }

/-- Evaluation of `render` in live mode (no animation active): the scene
keeps its fields except for the fk-updated object poses, and the tick's
camera and tree writes go to the live tree. -/
theorem render_live (s : Scene) (h : s.animation = none) :
    Scene.render s = some ({ s with objects := (Scene.applyFk s).1 },
      (Scene.updateCameraWrites s).map Event.live ++ (Scene.applyFk s).2
        ++ (treeWrites (Scene.applyFk s).1).map Event.live) := by
  simp [Scene.render, h]

/-- Evaluation of `render` in capture mode: frame index `n` is drawn from
the counter, the tick's writes are scoped to frame `n` and recorded in the
clip, and the counter advances to `n + 1`. -/
theorem render_capture (s : Scene) (a : Animation) (n : Nat)
    (ha : s.animation = some a) (hn : s.animation_frame_counter = some n) :
    Scene.render s = some ({ s with
        objects := (Scene.applyFk s).1
        animation := some (Animation.mk a.default_framerate
          (a.frames ++ [(n, (Scene.updateCameraWrites s
            ++ treeWrites (Scene.applyFk s).1).map Write.summary)]))
        animation_frame_counter := some (n + 1) },
      (Scene.updateCameraWrites s).map (Event.frame n) ++ (Scene.applyFk s).2
        ++ (treeWrites (Scene.applyFk s).1).map (Event.frame n)) := by
  simp [Scene.render, ha, hn]

/-- C7: setting `camera_pos = p` then reading `camera_pos` returns `p`,
and that write leaves the rotation block of `camera_pose` unchanged;
symmetrically, setting `camera_rot` leaves the translation block
(column 3, rows 0–2) unchanged. -/
theorem camera_pos_rot_block_independence (s : Scene) (p : Fin 3 → ℚ)
    (r : Fin 3 → Fin 3 → ℚ) :
    (s.set_camera_pos p).camera_pos = p ∧
    (s.set_camera_pos p).camera_rot = s.camera_rot ∧
    (s.set_camera_rot r).camera_pos = s.camera_pos := by
  refine ⟨funext fun i => ?_, ?_, funext fun i => ?_⟩
  · have hi : ((i.castSucc : Fin 4) : ℕ) < 3 := by simp
    simp [Scene.camera_pos, Scene.set_camera_pos, hi]
  · funext i j
    have hi : ((i.castSucc : Fin 4) : ℕ) < 3 := by simp
    have hj : (j.castSucc : Fin 4) ≠ 3 := by
      intro hEq
      have hv := congrArg Fin.val hEq
      simp [Fin.coe_castSucc] at hv
      omega
    simp [Scene.camera_rot, Scene.set_camera_pos, hi, hj]
  · simp [Scene.camera_pos, Scene.set_camera_rot]
    intro h
    exact absurd h (by decide)

/-- C4: for every body of the scoped block (normal or raising), the
`with`-block over an `AnimationContext` publishes the accumulated clip at
`animations/<name>` as its final event, clears both the clip and the
frame counter on the resulting scene, and propagates the body's in-flight
exception unchanged (never suppressing it). -/
theorem animation_exit_publishes_clears_propagates (s : Scene)
    (ctx : AnimationContext) (body : Scene → Scene × Option PyExc × List Event) :
    (withAnimation s ctx body).1.animation = none ∧
    (withAnimation s ctx body).1.animation_frame_counter = none ∧
    (withAnimation s ctx body).2.1 = (body (ctx.enter s)).2.1 ∧
    (withAnimation s ctx body).2.2 =
      (body (ctx.enter s)).2.2 ++
        [Event.set_animation ("animations/" ++ ctx.name)
          (body (ctx.enter s)).1.animation] := by
  refine ⟨rfl, rfl, rfl, rfl⟩

/-- C9: the zoom write of a render tick depends on the mode: with no
animation active it is the plain property write (the second event of the
tick, to the live tree); with a capture active it is tagged with the
explicit "number" type (and scoped to the current frame). -/
theorem camera_zoom_write_by_mode (s : Scene) :
    (s.animation = none →
      ∃ s1 evs, Scene.render s = some (s1, evs) ∧
        evs[1]? = some (.live (.set_property "/Cameras/default/rotated/<object>"
          "zoom" (.num s.camera_zoom)))) ∧
    (∀ a n, s.animation = some a → s.animation_frame_counter = some n →
      ∃ s1 evs, Scene.render s = some (s1, evs) ∧
        evs[1]? = some (.frame n (.set_property_typed
          "/Cameras/default/rotated/<object>" "zoom" "number"
          (.num s.camera_zoom)))) := by
  constructor
  · intro h
    refine ⟨_, _, render_live s h, ?_⟩
    simp [Scene.updateCameraWrites, h]
  · intro a n ha hn
    refine ⟨_, _, render_capture s a n ha hn, ?_⟩
    simp [Scene.updateCameraWrites, ha]

/-- C9 witness: concrete evaluation of both modes, at the initial scene
(live) and at a scene with an active capture at frame 0. -/
theorem camera_zoom_write_by_mode_witness :
    (∃ s1 evs, Scene.render Scene.init = some (s1, evs) ∧
      evs[1]? = some (.live (.set_property "/Cameras/default/rotated/<object>"
        "zoom" (.num Scene.init.camera_zoom)))) ∧
    (∃ s1 evs, Scene.render capSceneO = some (s1, evs) ∧
      evs[1]? = some (.frame 0 (.set_property_typed
        "/Cameras/default/rotated/<object>" "zoom" "number"
        (.num capSceneO.camera_zoom)))) :=
  ⟨(camera_zoom_write_by_mode Scene.init).1 rfl,
   (camera_zoom_write_by_mode capSceneO).2
     { default_framerate := 30, frames := [] } 0 rfl rfl⟩

/-- Lookup success implies `pop` succeeds. -/
theorem dpop_isSome_of_lookup {α : Type} :
    ∀ (d : List (String × α)) (k : String), (dlookup d k).isSome →
      ∃ d', dpop d k = some d'
  | [], k, h => by simp [dlookup] at h
  | (k0, v) :: rest, k, h => by
    by_cases he : k0 = k
    · exact ⟨rest, by simp [dpop, he]⟩
    · have h' : (dlookup rest k).isSome := by simpa [dlookup, he] using h
      obtain ⟨d', hd⟩ := dpop_isSome_of_lookup rest k h'
      exact ⟨(k0, v) :: d', by simp [dpop, he, hd]⟩

/-- Lookup failure implies `pop` fails (raising `KeyError`). -/
theorem dpop_eq_none_of_lookup_none {α : Type} :
    ∀ (d : List (String × α)) (k : String), dlookup d k = none → dpop d k = none
  | [], _, _ => rfl
  | (k0, _) :: rest, k, h => by
    by_cases he : k0 = k
    · simp [dlookup, he] at h
    · have h' : dlookup rest k = none := by simpa [dlookup, he] using h
      simp [dpop, he, dpop_eq_none_of_lookup_none rest k h']

/-- Assignment binds the key to the new value. -/
theorem dlookup_dinsert_self {α : Type} :
    ∀ (d : List (String × α)) (k : String) (v : α),
      dlookup (dinsert d k v) k = some v
  | [], k, v => by simp [dinsert, dlookup]
  | (k0, _) :: rest, k, v => by
    by_cases he : k0 = k
    · simp [dinsert, dlookup, he]
    · simp [dinsert, dlookup, he, dlookup_dinsert_self rest k v]

/-- Assignment to an existing key replaces in place: the key sequence is
unchanged. -/
theorem dkeys_dinsert_of_mem {α : Type} :
    ∀ (d : List (String × α)) (k : String) (v : α),
      (dlookup d k).isSome → dkeys (dinsert d k v) = dkeys d
  | [], k, _, h => by simp [dlookup] at h
  | (k0, w) :: rest, k, v, h => by
    by_cases he : k0 = k
    · simp [dinsert, dkeys, he]
    · have h' : (dlookup rest k).isSome := by simpa [dlookup, he] using h
      simp only [dinsert, if_neg he, dkeys, List.map_cons]
      exact congrArg (k0 :: ·) (dkeys_dinsert_of_mem rest k v h')

/-- Object fixture whose name is not registered in `sceneRO`. -/
def objM : Object := { name := "missing", geometry := "g", material := "m", pose := eye4 }

/-- C1: behavior of the code at the claim's guard: with an animation
capture active but `verbose = false`, `remove_object` removes the object
and issues the live delete write, and `remove_robot` removes the robot
and its constituent object — the capture-time refusal is skipped, contra
the claim's "for every value of the verbose argument". -/
theorem remove_during_capture_verbose_false :
    Scene.remove_object capSceneO objO false
      = (.ok { capSceneO with objects := [] }, [.live (.delete "o")]) ∧
    Scene.remove_robot capSceneO robotR false
      = (.ok { capSceneO with objects := [], robots := [] },
         [.live (.delete "o")]) := by
  constructor <;> rfl

/-- Order check for the write sequence asserted by C2 (camera pushed
last, after the fk pass): in a trace satisfying the claim, no fk call
may occur after a camera write. -/
def noFkAfterCamera : List Event → Bool
  | [] => true
  | e :: rest =>
      (!(e.isCamera) || rest.all fun x => !(x.isFk)) && noFkAfterCamera rest

/-- C2 counterexample: a scene with one robot and one object; the trace
of a single `render` call has an fk invocation after a camera write, so
the claimed order (fk first, camera last) is violated. -/
theorem render_order_counterexample :
    (Scene.render sceneRO).map (fun p => noFkAfterCamera p.2) = some false := by
  decide

/-- C2 amended: every `render` call performs its writes in this order:
first the camera pose and camera zoom are pushed, then `fk()` is invoked
on every registered robot, and last each registered object's current
(post-fk) pose is pushed as a transform write at its name. -/
theorem render_write_order (s : Scene)
    (h : s.animation.isSome = s.animation_frame_counter.isSome) :
    ∃ s1 evs tag, Scene.render s = some (s1, evs) ∧
      evs = (Scene.updateCameraWrites s).map tag
            ++ (s.robots.map fun kv => Event.fkCall kv.2.name)
            ++ (treeWrites (Scene.applyFk s).1).map tag ∧
      s1.objects = (Scene.applyFk s).1 := by
  cases ha : s.animation with
  | none => exact ⟨_, _, Event.live, render_live s ha, rfl, rfl⟩
  | some a =>
    cases hn : s.animation_frame_counter with
    | none => rw [ha, hn] at h; simp at h
    | some n => exact ⟨_, _, Event.frame n, render_capture s a n ha hn, rfl, rfl⟩

/-- C2 amended, witness: the order decomposition evaluated at the
one-robot one-object scene. -/
theorem render_write_order_witness :
    ∃ s1 evs tag, Scene.render sceneRO = some (s1, evs) ∧
      evs = (Scene.updateCameraWrites sceneRO).map tag
            ++ (sceneRO.robots.map fun kv => Event.fkCall kv.2.name)
            ++ (treeWrites (Scene.applyFk sceneRO).1).map tag ∧
      s1.objects = (Scene.applyFk sceneRO).1 :=
  render_write_order sceneRO rfl

/-- C5: with a capture active, `remove_object` with `verbose = true`
returns the scene unchanged and emits only the warning (no exception);
after the capture ends via `__exit__`, the same object is removed
successfully, with the delete write issued. -/
theorem remove_object_refused_then_removable (s : Scene) (obj : Object)
    (a : Animation) (ctx : AnimationContext)
    (ha : s.animation = some a)
    (hmem : (dlookup s.objects obj.name).isSome) :
    Scene.remove_object s obj true
      = (.ok s, [.warn "Removing object while animating is not allowed."]) ∧
    ∃ s3, Scene.remove_object ((ctx.exit s none).1) obj true
      = (.ok s3, [.live (.delete obj.name)]) := by
  constructor
  · simp [Scene.remove_object, ha]
  · obtain ⟨d', hd⟩ := dpop_isSome_of_lookup s.objects obj.name hmem
    exact ⟨{ (ctx.exit s none).1 with objects := d' },
      by simp [Scene.remove_object, AnimationContext.exit, hd]⟩

/-- C5 witness: concrete capture scene with the object registered. -/
theorem remove_object_refused_then_removable_witness :
    (Scene.remove_object capSceneO objO true
      = (.ok capSceneO, [.warn "Removing object while animating is not allowed."])) ∧
    ∃ s3, Scene.remove_object ((AnimationContext.mk 30 "a").exit capSceneO none).1 objO true
      = (.ok s3, [.live (.delete "o")]) :=
  remove_object_refused_then_removable capSceneO objO
    (Animation.mk 30 []) (AnimationContext.mk 30 "a") rfl rfl

/-- C6: adding an object under an already-present name (with the default
`verbose = true`) replaces the entry: the mapping binds the name to the
new object, the key sequence (hence key uniqueness) is unchanged, and the
call's console output is the warning (followed by the geometry write) —
no error channel exists, the operation is total. -/
theorem add_object_duplicate_replaces (s : Scene) (obj : Object)
    (hdup : (dlookup s.objects obj.name).isSome)
    (hnd : (dkeys s.objects).Nodup) :
    dlookup (Scene.add_object s obj).1.objects obj.name = some obj ∧
    (dkeys (Scene.add_object s obj).1.objects).Nodup ∧
    (Scene.add_object s obj).2 =
      [.warn "Object with the same name is already inside the scene, it will be replaced. ",
       .live (.set_object obj.name obj.geometry obj.material)] := by
  refine ⟨?_, ?_, ?_⟩
  · exact dlookup_dinsert_self s.objects obj.name obj
  · show (dkeys (dinsert s.objects obj.name obj)).Nodup
    rw [dkeys_dinsert_of_mem s.objects obj.name obj hdup]
    exact hnd
  · simp [Scene.add_object, hdup]

/-- C6 witness: re-adding `objO` to the scene already holding it. -/
theorem add_object_duplicate_replaces_witness :
    dlookup (Scene.add_object sceneRO objO).1.objects "o" = some objO ∧
    (dkeys (Scene.add_object sceneRO objO).1.objects).Nodup ∧
    (Scene.add_object sceneRO objO).2 =
      [.warn "Object with the same name is already inside the scene, it will be replaced. ",
       .live (.set_object "o" "g" "m")] :=
  add_object_duplicate_replaces sceneRO objO rfl (by simp [sceneRO, dkeys])

/-- C10: when the removal guard does not return early and the object's
name is not a key of the mapping, `remove_object` raises `KeyError`
(modelled as the error result) having issued no write at all — in
particular no delete reaches the visualizer. -/
theorem remove_object_missing_raises (s : Scene) (obj : Object) (v : Bool)
    (hguard : (v && s.animation.isSome) = false)
    (hmiss : dlookup s.objects obj.name = none) :
    Scene.remove_object s obj v = (.error "KeyError", []) := by
  simp [Scene.remove_object, hguard,
    dpop_eq_none_of_lookup_none s.objects obj.name hmiss]

/-- C10 witness: removing an unregistered object from the live scene. -/
theorem remove_object_missing_raises_witness :
    Scene.remove_object sceneRO objM true = (.error "KeyError", []) :=
  remove_object_missing_raises sceneRO objM true rfl rfl

/-- Iterated `render` in capture mode appends frames indexed consecutively
from the current counter value and advances the counter by the number of
calls. -/
theorem renderN_capture (N : Nat) :
    ∀ (s : Scene) (a : Animation) (n : Nat),
      s.animation = some a → s.animation_frame_counter = some n →
      ∃ s' evs tail,
        Scene.renderN s N = some (s', evs) ∧
        s'.animation = some (Animation.mk a.default_framerate (a.frames ++ tail)) ∧
        tail.map Prod.fst = List.range' n N ∧
        s'.animation_frame_counter = some (n + N) := by
  induction N with
  | zero =>
    intro s a n ha hn
    refine ⟨s, [], [], rfl, ?_, rfl, by simp [hn]⟩
    rw [ha]; cases a; simp
  | succ N ih =>
    intro s a n ha hn
    have hr := render_capture s a n ha hn
    obtain ⟨s2, evs2, tail2, hren, hanim, htail, hctr⟩ :=
      ih ({ s with
              objects := (Scene.applyFk s).1
              animation := some (Animation.mk a.default_framerate
                (a.frames ++ [(n, (Scene.updateCameraWrites s
                  ++ treeWrites (Scene.applyFk s).1).map Write.summary)]))
              animation_frame_counter := some (n + 1) })
        (Animation.mk a.default_framerate
          (a.frames ++ [(n, (Scene.updateCameraWrites s
            ++ treeWrites (Scene.applyFk s).1).map Write.summary)]))
        (n + 1) rfl rfl
    refine ⟨s2,
      ((Scene.updateCameraWrites s).map (Event.frame n) ++ (Scene.applyFk s).2
        ++ (treeWrites (Scene.applyFk s).1).map (Event.frame n)) ++ evs2,
      (n, (Scene.updateCameraWrites s
        ++ treeWrites (Scene.applyFk s).1).map Write.summary) :: tail2,
      ?_, ?_, ?_, ?_⟩
    · simp only [Scene.renderN, hr, hren]
    · rw [hanim]; simp [List.append_assoc]
    · rw [List.range'_succ]; simp [htail]
    · rw [hctr]; congr 1; omega

/-- C3: entering the animation context, rendering `N` times and exiting
produces a clip whose frames are tagged 0..N-1 in order (the counter
starts at 0 on entry and advances by one per render), the exit publishes
exactly that clip, and after exit the animation slot is cleared so every
subsequent `render` writes to the live tree (no frame-scoped write, and
the slot stays cleared). -/
theorem animation_capture_frames (s : Scene) (ctx : AnimationContext) (N : Nat) :
    ∃ s2 evs clip,
      Scene.renderN (ctx.enter s) N = some (s2, evs) ∧
      s2.animation = some clip ∧
      clip.frames.map Prod.fst = List.range N ∧
      s2.animation_frame_counter = some N ∧
      (ctx.exit s2 none).2.1
        = [.set_animation ("animations/" ++ ctx.name) (some clip)] ∧
      (ctx.exit s2 none).1.animation = none ∧
      (∀ t : Scene, t.animation = none →
        ∃ t1 tevs, Scene.render t = some (t1, tevs) ∧ t1.animation = none ∧
          ∀ e ∈ tevs, e.isFrameWrite = false) := by
  obtain ⟨s2, evs, tail, hren, hanim, htail, hctr⟩ :=
    renderN_capture N (ctx.enter s) (Animation.mk ctx.fps []) 0 rfl rfl
  refine ⟨s2, evs, _, hren, hanim, ?_, by simpa using hctr, ?_, rfl, ?_⟩
  · simpa [List.range_eq_range'] using htail
  · simp [AnimationContext.exit, hanim]
  · intro t ht
    refine ⟨_, _, render_live t ht, ht, ?_⟩
    intro e he
    simp only [List.mem_append, List.mem_map] at he
    rcases he with ((⟨w, _, rfl⟩ | he) | ⟨w, _, rfl⟩)
    · rfl
    · rcases List.mem_map.mp he with ⟨kv, _, rfl⟩
      rfl
    · rfl

/-- C3 witness: two captured frames from the fresh scene. -/
theorem animation_capture_frames_witness :
    ∃ s2 evs clip,
      Scene.renderN ((AnimationContext.mk 30 "a").enter Scene.init) 2 = some (s2, evs) ∧
      s2.animation = some clip ∧
      clip.frames.map Prod.fst = List.range 2 ∧
      s2.animation_frame_counter = some 2 ∧
      ((AnimationContext.mk 30 "a").exit s2 none).2.1
        = [.set_animation ("animations/" ++ "a") (some clip)] ∧
      ((AnimationContext.mk 30 "a").exit s2 none).1.animation = none ∧
      (∀ t : Scene, t.animation = none →
        ∃ t1 tevs, Scene.render t = some (t1, tevs) ∧ t1.animation = none ∧
          ∀ e ∈ tevs, e.isFrameWrite = false) :=
  animation_capture_frames Scene.init (AnimationContext.mk 30 "a") 2

/-- `add_object` does not touch the animation fields. -/
theorem add_object_animation (s : Scene) (obj : Object) (v : Bool) :
    (Scene.add_object s obj v).1.animation = s.animation ∧
    (Scene.add_object s obj v).1.animation_frame_counter
      = s.animation_frame_counter :=
  ⟨rfl, rfl⟩

/-- Folding `add_object` over a list of objects does not touch the
animation fields. -/
theorem addObjectStep_fold_animation (v : Bool) :
    ∀ (objs : List Object) (acc : Scene × List Event),
      (objs.foldl (addObjectStep v) acc).1.animation = acc.1.animation ∧
      (objs.foldl (addObjectStep v) acc).1.animation_frame_counter
        = acc.1.animation_frame_counter
  | [], _ => ⟨rfl, rfl⟩
  | o :: rest, acc => by
    have ih := addObjectStep_fold_animation v rest (addObjectStep v acc o)
    simpa [addObjectStep, Scene.add_object] using ih

/-- `add_robot` does not touch the animation fields. -/
theorem add_robot_animation (s : Scene) (r : Robot) (v : Bool) :
    (Scene.add_robot s r v).1.animation = s.animation ∧
    (Scene.add_robot s r v).1.animation_frame_counter
      = s.animation_frame_counter := by
  have h := addObjectStep_fold_animation v r.objects
    ({ s with robots := dinsert s.robots r.name r },
     if v && (dlookup s.robots r.name).isSome then
       [.warn "Robot with the same name is already inside the scene, it will be replaced. "]
     else [])
  simpa [Scene.add_robot] using h

/-- A `remove_object` call that returns normally does not touch the
animation fields. -/
theorem remove_object_ok_animation (s : Scene) (obj : Object) (v : Bool)
    (s' : Scene) (h : (Scene.remove_object s obj v).1 = .ok s') :
    s'.animation = s.animation ∧
    s'.animation_frame_counter = s.animation_frame_counter := by
  unfold Scene.remove_object at h
  by_cases hg : (v && s.animation.isSome) = true
  · rw [if_pos hg] at h
    simp at h
    subst h
    exact ⟨rfl, rfl⟩
  · rw [if_neg hg] at h
    cases hd : dpop s.objects obj.name with
    | none => rw [hd] at h; simp at h
    | some objs =>
      rw [hd] at h
      simp at h
      subst h
      exact ⟨rfl, rfl⟩

/-- The `remove_robot` object loop, when it returns normally, does not
touch the animation fields. -/
theorem removeObjectsLoop_animation :
    ∀ (objs : List Object) (v : Bool) (s s' : Scene),
      (Scene.removeObjectsLoop s objs v).1 = .ok s' →
      s'.animation = s.animation ∧
      s'.animation_frame_counter = s.animation_frame_counter
  | [], v, s, s', h => by
    simp [Scene.removeObjectsLoop] at h
    subst h
    exact ⟨rfl, rfl⟩
  | o :: rest, v, s, s', h => by
    simp only [Scene.removeObjectsLoop] at h
    rcases hro : Scene.remove_object s o v with ⟨res, evs⟩
    rw [hro] at h
    cases res with
    | ok s1 =>
      have h1 := remove_object_ok_animation s o v s1 (by rw [hro])
      have h2 := removeObjectsLoop_animation rest v s1 s' h
      exact ⟨h2.1.trans h1.1, h2.2.trans h1.2⟩
    | error e => simp at h

/-- A `remove_robot` call that returns normally does not touch the
animation fields. -/
theorem remove_robot_ok_animation (s : Scene) (r : Robot) (v : Bool)
    (s' : Scene) (h : (Scene.remove_robot s r v).1 = .ok s') :
    s'.animation = s.animation ∧
    s'.animation_frame_counter = s.animation_frame_counter := by
  unfold Scene.remove_robot at h
  by_cases hg : (v && s.animation.isSome) = true
  · rw [if_pos hg] at h
    simp at h
    subst h
    exact ⟨rfl, rfl⟩
  · rw [if_neg hg] at h
    cases hd : dpop s.robots r.name with
    | none => rw [hd] at h; simp at h
    | some robots =>
      rw [hd] at h
      exact removeObjectsLoop_animation r.objects v { s with robots := robots } s' h

/-- A `render` call preserves the both-or-neither synchronization of the
animation fields. -/
theorem render_animation_sync (s s' : Scene) (evs : List Event)
    (h : Scene.render s = some (s', evs))
    (hinv : s.animation.isSome = s.animation_frame_counter.isSome) :
    s'.animation.isSome = s'.animation_frame_counter.isSome := by
  cases ha : s.animation with
  | none =>
    rw [render_live s ha] at h
    simp only [Option.some.injEq, Prod.mk.injEq] at h
    obtain ⟨rfl, rfl⟩ := h
    exact hinv
  | some a =>
    cases hc : s.animation_frame_counter with
    | none => rw [ha, hc] at hinv; simp at hinv
    | some n =>
      rw [render_capture s a n ha hc] at h
      simp only [Option.some.injEq, Prod.mk.injEq] at h
      obtain ⟨rfl, rfl⟩ := h
      rfl

/-- C8: in every scene state reachable through the public API
(construction, add/remove of objects and robots, render ticks, animation
context entry/exit, camera setters), the animation clip reference and the
frame counter reference are either both present or both absent. -/
theorem animation_fields_both_or_neither (s : Scene) (h : Reachable s) :
    s.animation.isSome = s.animation_frame_counter.isSome := by
  induction h with
  | init => rfl
  | step hprev hstep ih =>
    cases hstep with
    | add_object obj v =>
      rw [(add_object_animation _ obj v).1, (add_object_animation _ obj v).2]
      exact ih
    | remove_object t' obj v hok =>
      obtain ⟨e1, e2⟩ := remove_object_ok_animation _ obj v _ hok
      rw [e1, e2]; exact ih
    | add_robot r v =>
      rw [(add_robot_animation _ r v).1, (add_robot_animation _ r v).2]
      exact ih
    | remove_robot t' r v hok =>
      obtain ⟨e1, e2⟩ := remove_robot_ok_animation _ r v _ hok
      rw [e1, e2]; exact ih
    | render t' evs hr => exact render_animation_sync _ _ evs hr ih
    | animEnter ctx => rfl
    | animExit ctx exc => rfl
    | set_camera_pos p => exact ih
    | set_camera_rot r => exact ih
    | set_camera_zoom z => exact ih

/-- C8 witness: the invariant evaluated at the state reached by entering
an animation context on a fresh scene. -/
theorem animation_fields_both_or_neither_witness :
    ((AnimationContext.mk 30 "a").enter Scene.init).animation.isSome
      = ((AnimationContext.mk 30 "a").enter Scene.init).animation_frame_counter.isSome :=
  animation_fields_both_or_neither _
    (Reachable.step Reachable.init
      (Step.animEnter Scene.init (AnimationContext.mk 30 "a")))

end RoboMeshCat
